import Mathlib

/-!
Shallow embedding of the pihub module runtime (github.com/xanderflood/pihub).

The repository contains the current iteration (`src/main.go`, together with
`pkg/gpio` and `pkg/htg3535ch`) and several superseded iterations preserved in
`src/unnamed/part_000` .. `part_005`.  Two iterations are embedded here:

* `PiHub.GoMain` — the code of `src/main.go`: the `JSONHack`-based module
  runtime (`ManagerAgent`, `ModuleIndex`, the five drivers, `ServiceAgent`).
* `PiHub.IterB` — the binder-based iteration (the second file stored in
  `src/unnamed/part_004` plus the first file stored in `src/unnamed/part_002`):
  the `Binder`/`JSONBinder` configuration pipeline, the seven drivers, the
  `/act` HTTP handler and the `ServiceAgent` with `GetDefaultI2CBus` /
  `GetGPIOByName`.

Go `interface{}` values that hold decoded JSON are modelled by `JSONValue`;
the Go `nil` interface is modelled by `JSONValue.null` (encoding/json produces
a nil interface for the JSON literal `null`, and a Go map lookup at a missing
key produces the nil interface as well).  Go panics are modelled explicitly
(`none` of an `Option`, or a dedicated `panic` constructor), Go errors are
modelled as values.  `float64` values are modelled by `ℚ`; the file never
relies on float rounding behaviour, only on carrying the numbers around.
Reference identity of heap-allocated handles is modelled by allocation ids
drawn from a monotone counter.
-/

namespace PiHub

/-- A decoded JSON document, as Go's encoding/json produces it into an
`interface{}`: `null`/nil, bool, number (float64, modelled as `ℚ`), string,
array, or a string-keyed object.  `obj` models a Go `map[string]interface{}`;
its field list stands for a map, so keys are unique by construction and
lookups take the first binding. -/
inductive JSONValue where
  | null
  | bool (b : Bool)
  | num (q : ℚ)
  | str (s : String)
  | arr (elems : List JSONValue)
  | obj (fields : List (String × JSONValue))
deriving Repr

/-- Field lookup in an object's field list (a Go map access that
distinguishes missing keys). -/
def objLookup (fields : List (String × JSONValue)) (key : String) : Option JSONValue :=
  fields.lookup key

/-- `fmt.Sprintf("%.0f", x)` renders a float64 rounded to the nearest integer
with ties to even. -/
def roundEven (q : ℚ) : ℤ :=
  let f := ⌊q⌋
  let r := q - f
  if r < 1 / 2 then f
  else if 1 / 2 < r then f + 1
  else if f % 2 = 0 then f else f + 1

/-- `strconv.Atoi(fmt.Sprintf("%.0f", x))` with the error discarded, as every
driver in this repository does: round ties-to-even, then parse; on range
overflow `ParseInt` returns the clamped int64 bound together with the
discarded error. -/
def atoiF0 (q : ℚ) : ℤ :=
  max (-(2 ^ 63)) (min (roundEven q) (2 ^ 63 - 1))

/-- Go's `uint8(n)` conversion of an int. -/
def uint8Of (n : ℤ) : ℕ := (n % 256).toNat

/-- Go's `uint16(n)` conversion of an int. -/
def uint16Of (n : ℤ) : ℕ := (n % 65536).toNat

/-- Go map assignment `m[k] = v` on a table represented as a key-ordered
association list: overwrite the binding if the key is present, append it
otherwise. -/
def upsert {α : Type} : List (String × α) → String → α → List (String × α)
  | [], k, v => [(k, v)]
  | (k', v') :: rest, k, v =>
    if k' = k then (k, v) :: rest else (k', v') :: upsert rest k v

/-- Outcome of a Go call that can panic, return an error, or return a value.
Used for driver `Act` methods, whose Go signature is `(interface{}, error)`
and which can also panic on type assertions and nil dereferences. -/
inductive GoResult (α : Type) where
  | panic
  | err (msg : String)
  | ok (a : α)
deriving Repr

namespace GoMain

/-- `GetUnsafe(ref, path...)` from `src/main.go` (lines 79-85): repeatedly
casts the current value to `map[string]interface{}` and indexes it.  The cast
panics when the value is not an object (in particular on the nil interface,
i.e. `JSONValue.null`); indexing at a missing key yields the nil interface.
`none` models the panic escaping `GetUnsafe`. -/
def GetUnsafe : JSONValue → List String → Option JSONValue
  | ref, [] => some ref
  | ref, seg :: rest =>
    match ref with
    | .obj fields => GetUnsafe ((objLookup fields seg).getD .null) rest
    | _ => none

/-- The value `GetUnsafe` traverses to, as a total function (meaningful when
the traversal does not panic). -/
def traversePath : JSONValue → List String → JSONValue
  | ref, [] => ref
  | ref, seg :: rest =>
    match ref with
    | .obj fields => traversePath ((objLookup fields seg).getD .null) rest
    | _ => .null

/-- Every traversal step of the path indexes a string-keyed map: the
condition under which `GetUnsafe` runs to completion without panicking. -/
def pathOk : JSONValue → List String → Bool
  | _, [] => true
  | ref, seg :: rest =>
    match ref with
    | .obj fields => pathOk ((objLookup fields seg).getD .null) rest
    | _ => false

/-- `Get(ref, path...)` from `src/main.go` (lines 68-77): runs `GetUnsafe`
under a deferred `recover`; a panic is converted into `(nil, false)`,
otherwise the traversed value is returned with `ok = true`. -/
def Get (ref : JSONValue) (path : List String) : JSONValue × Bool :=
  match GetUnsafe ref path with
  | some v => (v, true)
  | none => (.null, false)

/-- The hardware environment `src/main.go` runs against: outcomes of the
external periph.io / rpio calls.  Deterministic by modelling choice; every
theorem quantifies over it. -/
structure HWEnv where
  /-- whether `gpio.Setup()` (rpio.Open) succeeds -/
  gpioSetupOk : Bool
  /-- whether `host.Init()` succeeds -/
  hostInitOk : Bool
  /-- whether `i2creg.Open("")` succeeds -/
  i2cOpenOk : Bool
  /-- whether `ads1x15.NewADS1115` succeeds -/
  adsNewOk : Bool
  /-- whether `PinForChannel` succeeds -/
  adsPinOk : Bool
  /-- the response of a bus transaction `Tx(written, resp)` on bus/addr with
  `len(resp)` response bytes; `none` is a bus error -/
  i2cTx : ℕ → ℕ → List ℕ → ℕ → Option (List ℕ)
  /-- the `analog.Sample` produced by the ADS pin's `Read`; `none` is a read
  error -/
  adsRead : Option JSONValue
  /-- HTG temperature reading (Kelvins) per ADC channel; `none` is an error -/
  htgTk : ℤ → Option ℚ
  /-- HTG relative-humidity reading per ADC channel; `none` is an error -/
  htgRh : ℤ → Option ℚ

/-- The mutable fields of `ServiceAgent` (`src/main.go` lines 384-387), plus
an allocation counter giving heap identities to opened buses and `&i2c.Dev`
values, and a count of successful `i2creg.Open` calls. -/
structure ServiceState where
  gpioInitted : Bool
  i2c : Option ℕ
  nextId : ℕ
  opens : ℕ
deriving Repr, DecidableEq

/-- The `ServiceAgent{}` zero value installed by `buildMux`. -/
def initialServiceState : ServiceState :=
  { gpioInitted := false, i2c := none, nextId := 0, opens := 0 }

/-- A `*i2c.Dev` handle: `devId` is the heap identity of the `i2c.Dev`
allocation (two handles are reference-equal exactly when their `devId`s
agree), `busId` the heap identity of the bus it wraps. -/
structure I2CDev where
  devId : ℕ
  busId : ℕ
  addr : ℕ
deriving Repr, DecidableEq

/-- `ServiceAgent.GetGPIOPin` (`src/main.go` lines 389-398): runs
`gpio.Setup()` whenever `gpioInitted` is false — and the code never sets
`gpioInitted`, so the state is returned unchanged — then returns
`gpio.PinRef(p)`, which is the pin number itself. -/
def getGPIOPin (env : HWEnv) (p : ℕ) (s : ServiceState) : Except String (ℕ × ServiceState) :=
  if s.gpioInitted then .ok (p, s)
  else if env.gpioSetupOk then .ok (p, s)
  else .error "gpio setup failed"

/-- `ServiceAgent.GetI2CDevice` (`src/main.go` lines 399-417): `host.Init()`
first; then, if no bus is cached, open one via `i2creg.Open("")` and cache
it; finally allocate a fresh `&i2c.Dev{Bus: a.i2c, Addr: addr}` around the
cached bus. -/
def getI2CDevice (env : HWEnv) (addr : ℕ) (s : ServiceState) :
    Except String (I2CDev × ServiceState) :=
  if env.hostInitOk then
    match s.i2c with
    | some b =>
      .ok (⟨s.nextId, b, addr⟩, { s with nextId := s.nextId + 1 })
    | none =>
      if env.i2cOpenOk then
        let b := s.nextId
        .ok (⟨s.nextId + 1, b, addr⟩,
          { s with i2c := some b, nextId := s.nextId + 2, opens := s.opens + 1 })
      else .error "failed opening i2c bus"
  else .error "failed initializing host"

/-- A driver instance from `src/main.go`'s module library, either the zero
value `factory()` produces or the state `Initialize` leaves behind.  The
`HTGModule` zero value carries zero-valued channel numbers, so it is
represented as `htg 0 0`. -/
inductive ModuleInst where
  | echo
  | relayZero
  | relay (pin : ℕ)
  | i2cZero
  | i2cInst (dvc : I2CDev)
  | adsZero
  | adsInst (dvc : I2CDev)
  | htg (tempCh : ℤ) (humCh : ℤ)
deriving Repr, DecidableEq

/-- `ModuleIndex` (`src/main.go` lines 36-42): look up the driver kind and
produce the factory's fresh zero-value instance. -/
def factory : String → Option ModuleInst
  | "echo" => some .echo
  | "relay" => some .relayZero
  | "htg3535ch" => some (.htg 0 0)
  | "i2c" => some .i2cZero
  | "ads" => some .adsZero
  | _ => none

/-- `GetUnsafe(config, key).(float64)`: `none` models the panic of either the
map cast inside `GetUnsafe` or the float64 type assertion. -/
def getFloatField (config : JSONValue) (key : String) : Option ℚ :=
  match GetUnsafe config [key] with
  | some (.num q) => some q
  | _ => none

/-- Outcome of a driver `Initialize` call: a panic (which leaves the service
state untouched — in `src/main.go` every panic in an `Initialize` body occurs
before any `ServiceProvider` call), an error, or the initialized instance. -/
inductive InitResult where
  | panic
  | err (msg : String) (s : ServiceState)
  | ok (inst : ModuleInst) (s : ServiceState)
deriving Repr

/-- `RelayModule.Initialize` (`src/main.go` lines 219-226): parse the `pin`
config field through `%.0f`/`Atoi`/`uint8`, then `sp.GetGPIOPin`. -/
def relayInitialize (env : HWEnv) (config : JSONValue) (s : ServiceState) : InitResult :=
  match getFloatField config "pin" with
  | none => .panic
  | some q =>
    match getGPIOPin env (uint8Of (atoiF0 q)) s with
    | .error e => .err e s
    | .ok (p, s') => .ok (.relay p) s'

/-- `I2CModule.Initialize` (`src/main.go` lines 245-256). -/
def i2cInitialize (env : HWEnv) (config : JSONValue) (s : ServiceState) : InitResult :=
  match getFloatField config "address" with
  | none => .panic
  | some q =>
    match getI2CDevice env (uint16Of (atoiF0 q)) s with
    | .error e => .err ("failed getting i2c device: " ++ e) s
    | .ok (d, s') => .ok (.i2cInst d) s'

/-- `ADS1115Module.Initialize` (`src/main.go` lines 300-324): i2c device,
then `ads1x15.NewADS1115` on its bus, then `PinForChannel` for channel 0. -/
def adsInitialize (env : HWEnv) (config : JSONValue) (s : ServiceState) : InitResult :=
  match getFloatField config "address" with
  | none => .panic
  | some q =>
    match getI2CDevice env (uint16Of (atoiF0 q)) s with
    | .error e => .err ("failed getting i2c device: " ++ e) s
    | .ok (d, s') =>
      if env.adsNewOk then
        if env.adsPinOk then .ok (.adsInst d) s'
        else .err "failed initializing ADS1115 device" s'
      else .err "failed initializing ADS1115 device" s'

/-- `HTGModule.Initialize` (`src/main.go` lines 340-353): parse both channel
fields and store the channel-based readers; no `ServiceProvider` call. -/
def htgInitialize (config : JSONValue) (s : ServiceState) : InitResult :=
  match getFloatField config "temperature_adc_channel" with
  | none => .panic
  | some qt =>
    match getFloatField config "humidity_adc_channel" with
    | none => .panic
    | some qh => .ok (.htg (atoiF0 qt) (atoiF0 qh)) s

/-- Dispatch of the `Initialize` method on an instance (the method bodies
only write fields, so the behaviour does not depend on the current field
values). -/
def initInst (env : HWEnv) (inst : ModuleInst) (config : JSONValue) (s : ServiceState) :
    InitResult :=
  match inst with
  | .echo => .ok .echo s
  | .relayZero => relayInitialize env config s
  | .relay _ => relayInitialize env config s
  | .i2cZero => i2cInitialize env config s
  | .i2cInst _ => i2cInitialize env config s
  | .adsZero => adsInitialize env config s
  | .adsInst _ => adsInitialize env config s
  | .htg _ _ => htgInitialize config s

/-- `ModuleSpec` (`src/main.go` lines 90-93). -/
structure ModuleSpec where
  Source : String
  Config : JSONValue

/-- `ManagerAgent` (`src/main.go` lines 121-124): the live module table and
the service provider's state. -/
structure ManagerState where
  Modules : List (String × ModuleInst)
  svc : ServiceState

/-- Outcome of `InitializeModules` as the HTTP layer observes it. -/
inductive BatchResult where
  | panicked
  | err (msg : String)
  | ok
deriving Repr, DecidableEq

/-- `ManagerAgent.InitializeModules` (`src/main.go` lines 44-56).  The specs
map is iterated in some order, modelled by the list order.  For each spec:
look up the source in `ModuleIndex`; on a hit, assign the fresh instance into
the live table (`a.Modules[name] = factory()`) and then initialize it in
place, aborting the whole call on the first error; on a miss, abort with the
`404 no such module source` error.  The table is mutated as the loop goes and
is never restored. -/
def initializeModules (env : HWEnv) :
    List (String × ModuleSpec) → ManagerState → BatchResult × ManagerState
  | [], ms => (.ok, ms)
  | (name, spec) :: rest, ms =>
    match factory spec.Source with
    | some zero =>
      let table1 := upsert ms.Modules name zero
      match initInst env zero spec.Config ms.svc with
      | .panic => (.panicked, { Modules := table1, svc := ms.svc })
      | .err e s' => (.err ("failed to initialize module: " ++ e), { Modules := table1, svc := s' })
      | .ok inst s' => initializeModules env rest { Modules := upsert table1 name inst, svc := s' }
    | none => (.err ("404 no such module source: " ++ spec.Source), ms)

/-- An observable hardware side effect: a GPIO pin write (the three rpio pin
calls `gpio.Set` makes), a bus transaction, or an ADC read. -/
inductive HWOp where
  | pinOutput (pin : ℕ)
  | pinHigh (pin : ℕ)
  | pinLow (pin : ℕ)
  | i2cTx (busId addr : ℕ) (written : List ℕ) (respLen : ℕ)
  | adsPinRead (busId addr : ℕ)
  | htgRead (channel : ℤ)
deriving Repr, DecidableEq

/-- `gpio.Set(pin, high)` from `pkg/gpio/gpio.go` (lines 66-73):
`pin.Output()` then `pin.High()` or `pin.Low()`. -/
def gpioSet (pin : ℕ) (high : Bool) : List HWOp :=
  [.pinOutput pin, if high then .pinHigh pin else .pinLow pin]

/-- The Go error message `no such action `...``. -/
def noSuchAction (action : String) : String :=
  "no such action `" ++ action ++ "`"

/-- Checks that every element of the decoded `bytes` array is a float64 (the
per-element `val.(float64)` assertions), returning the numbers. -/
def allNums : List JSONValue → Option (List ℚ)
  | [] => some []
  | .num q :: rest => (allNums rest).map (q :: ·)
  | _ :: _ => none

/-- The env-supplied bus response normalized to the `resp` buffer: exactly
`rlen` bytes. -/
def respBytes (r : List ℕ) (rlen : ℕ) : List ℕ :=
  ((r ++ List.replicate rlen 0).take rlen).map (· % 256)

/-- The `Act` methods of `src/main.go`'s module library (lines 208-213,
227-239, 257-291, 325-333, 354-371), with the hardware operations each call
performs recorded as a trace.  Acting on a zero-value instance panics on the
nil pin/device exactly where the Go code would. -/
def moduleAct (env : HWEnv) (inst : ModuleInst) (action : String) (config : JSONValue) :
    GoResult JSONValue × List HWOp :=
  match inst with
  | .echo =>
    (.ok (.obj [("action", .str action), ("config", config)]), [])
  | .relayZero =>
    if action = "set" then
      match Get config ["state"] with
      | (_, true) => (.panic, [])
      | (_, false) => (.err "`state` is a required field for the `set` action", [])
    else (.err (noSuchAction action), [])
  | .relay pin =>
    if action = "set" then
      match Get config ["state"] with
      | (.str s, true) => (.ok .null, gpioSet pin (s = "high"))
      | (_, true) => (.panic, [])
      | (_, false) => (.err "`state` is a required field for the `set` action", [])
    else (.err (noSuchAction action), [])
  | .i2cZero =>
    if action = "transact" then
      match Get config ["bytes"] with
      | (.arr elems, true) =>
        match allNums elems with
        | some _ =>
          match getFloatField config "resp_len" with
          | none => (.panic, [])
          | some _ => (.panic, [])
        | none => (.panic, [])
      | (_, true) => (.panic, [])
      | (_, false) => (.err "`bytes` is a required field for the `transact` action", [])
    else (.err (noSuchAction action), [])
  | .i2cInst d =>
    if action = "transact" then
      match Get config ["bytes"] with
      | (.arr elems, true) =>
        match allNums elems with
        | some qs =>
          let msg := qs.map (fun q => uint8Of (atoiF0 q))
          match getFloatField config "resp_len" with
          | none => (.panic, [])
          | some q =>
            let n := atoiF0 q
            if n < 0 then (.panic, [])
            else
              let rlen := n.toNat
              match env.i2cTx d.busId d.addr msg rlen with
              | none =>
                (.err "failed executing I2C transaction: i2c bus error",
                 [.i2cTx d.busId d.addr msg rlen])
              | some resp =>
                (.ok (.obj [("response", .arr ((respBytes resp rlen).map (fun b => .num b)))]),
                 [.i2cTx d.busId d.addr msg rlen])
        | none => (.panic, [])
      | (_, true) => (.panic, [])
      | (_, false) => (.err "`bytes` is a required field for the `transact` action", [])
    else (.err (noSuchAction action), [])
  | .adsZero =>
    if action = "rh" then (.panic, [])
    else (.err (noSuchAction action), [])
  | .adsInst d =>
    if action = "rh" then
      match env.adsRead with
      | some sample => (.ok sample, [.adsPinRead d.busId d.addr])
      | none => (.err "ads read failed", [.adsPinRead d.busId d.addr])
    else (.err (noSuchAction action), [])
  | .htg t h =>
    if action = "rh" then
      match env.htgRh h with
      | some v => (.ok (.num v), [.htgRead h])
      | none => (.err "htg read failed", [.htgRead h])
    else if action = "tk" then
      match env.htgTk t with
      | some v => (.ok (.num v), [.htgRead t])
      | none => (.err "htg read failed", [.htgRead t])
    else if action = "tc" then
      match env.htgTk t with
      | some v => (.ok (.num (v - 273.15)), [.htgRead t])
      | none => (.err "htg read failed", [.htgRead t])
    else if action = "tf" then
      match env.htgTk t with
      | some v => (.ok (.num ((v - 273.15) * 9 / 5 + 32)), [.htgRead t])
      | none => (.err "htg read failed", [.htgRead t])
    else (.err (noSuchAction action), [])

/-- `ManagerAgent.Act` (`src/main.go` lines 57-62): look the module up in the
live table; delegate on a hit, return the `no such module` error on a miss.
The manager state is carried through to make its (non-)mutation explicit. -/
def managerAct (env : HWEnv) (ms : ManagerState) (module action : String) (config : JSONValue) :
    GoResult JSONValue × List HWOp × ManagerState :=
  match ms.Modules.lookup module with
  | some inst =>
    let (r, tr) := moduleAct env inst action config
    (r, tr, ms)
  | none => (.err "no such module", [], ms)

/-- The action names each driver's `Act` switch recognizes; `none` for
`EchoModule`, which accepts every action. -/
def knownActions : ModuleInst → Option (List String)
  | .echo => none
  | .relayZero => some ["set"]
  | .relay _ => some ["set"]
  | .i2cZero => some ["transact"]
  | .i2cInst _ => some ["transact"]
  | .adsZero => some ["rh"]
  | .adsInst _ => some ["rh"]
  | .htg _ _ => some ["rh", "tk", "tc", "tf"]

end GoMain

namespace IterB

/-- A Go error as the `/act` handler classifies it with
`errors.As(err, &InputError{})`: either wrapped in the binder's `InputError`
(a decode or validation failure) or a plain error. -/
inductive GoErr where
  | input (msg : String)
  | plain (msg : String)
deriving Repr, DecidableEq

/-- `errors.As(err, &InputError{})`. -/
def GoErr.isInput : GoErr → Bool
  | .input _ => true
  | .plain _ => false

/-- `fmt.Errorf(pre + "%w", err)`: prefixes the message; `errors.As` still
finds an `InputError` through the wrap. -/
def GoErr.wrap (pre : String) : GoErr → GoErr
  | .input m => .input (pre ++ m)
  | .plain m => .plain (pre ++ m)

/-- The value of one standard base64 alphabet character. -/
def b64val (c : Char) : Option ℕ :=
  if 'A' ≤ c ∧ c ≤ 'Z' then some (c.toNat - 65)
  else if 'a' ≤ c ∧ c ≤ 'z' then some (c.toNat - 71)
  else if '0' ≤ c ∧ c ≤ '9' then some (c.toNat + 4)
  else if c = '+' then some 62
  else if c = '/' then some 63
  else none

/-- Standard (padded) base64 decoding over quartets of characters, as
`encoding/json` uses for `[]byte` struct fields. -/
def b64decodeChars : List Char → Option (List ℕ)
  | [] => some []
  | a :: b :: c :: d :: rest =>
    match b64val a, b64val b with
    | some va, some vb =>
      if d = '=' then
        if rest.isEmpty then
          if c = '=' then some [va * 4 + vb / 16]
          else
            match b64val c with
            | some vc => some [va * 4 + vb / 16, vb % 16 * 16 + vc / 4]
            | none => none
        else none
      else
        match b64val c, b64val d with
        | some vc, some vd =>
          (b64decodeChars rest).map
            (fun tl => (va * 4 + vb / 16) :: (vb % 16 * 16 + vc / 4) :: (vc % 4 * 64 + vd) :: tl)
        | _, _ => none
    | _, _ => none
  | _ => none

/-- `base64.StdEncoding` decoding of a string. -/
def base64decode (s : String) : Option (List ℕ) :=
  b64decodeChars s.toList

/-- The generic decode-failure message class of `encoding/json`. -/
def unmarshalErr : String := "json: cannot unmarshal"

/-- Decoding a JSON object field into a `string` struct field: a missing
field and the JSON literal `null` leave the current value; a JSON string
overwrites it; anything else is a decode error. -/
def decStrField (fs : List (String × JSONValue)) (key : String) (cur : String) :
    Except String String :=
  match objLookup fs key with
  | none => .ok cur
  | some .null => .ok cur
  | some (.str s) => .ok s
  | some _ => .error unmarshalErr

/-- Decoding into a `bool` struct field. -/
def decBoolField (fs : List (String × JSONValue)) (key : String) (cur : Bool) :
    Except String Bool :=
  match objLookup fs key with
  | none => .ok cur
  | some .null => .ok cur
  | some (.bool b) => .ok b
  | some _ => .error unmarshalErr

/-- Decoding into an `int`/`int64` struct field: the JSON number must be
integral and within the signed 64-bit range. -/
def decIntField (fs : List (String × JSONValue)) (key : String) (cur : ℤ) :
    Except String ℤ :=
  match objLookup fs key with
  | none => .ok cur
  | some .null => .ok cur
  | some (.num q) =>
    if q.den = 1 ∧ -(2 ^ 63) ≤ q.num ∧ q.num < 2 ^ 63 then .ok q.num
    else .error unmarshalErr
  | some _ => .error unmarshalErr

/-- Decoding into a `uint16` struct field. -/
def decUint16Field (fs : List (String × JSONValue)) (key : String) (cur : ℕ) :
    Except String ℕ :=
  match objLookup fs key with
  | none => .ok cur
  | some .null => .ok cur
  | some (.num q) =>
    if q.den = 1 ∧ 0 ≤ q.num ∧ q.num < 65536 then .ok q.num.toNat
    else .error unmarshalErr
  | some _ => .error unmarshalErr

/-- Decoding into a `float64` struct field. -/
def decFloatField (fs : List (String × JSONValue)) (key : String) (cur : ℚ) :
    Except String ℚ :=
  match objLookup fs key with
  | none => .ok cur
  | some .null => .ok cur
  | some (.num q) => .ok q
  | some _ => .error unmarshalErr

/-- Decoding into a `*float64` struct field: `null` sets the pointer to nil. -/
def decOptFloatField (fs : List (String × JSONValue)) (key : String) (cur : Option ℚ) :
    Except String (Option ℚ) :=
  match objLookup fs key with
  | none => .ok cur
  | some .null => .ok none
  | some (.num q) => .ok (some q)
  | some _ => .error unmarshalErr

/-- Decoding into a `[]byte` struct field: `null` nils the slice, a string is
base64-decoded, anything else is a decode error. -/
def decBytesField (fs : List (String × JSONValue)) (key : String) (cur : List ℕ) :
    Except String (List ℕ) :=
  match objLookup fs key with
  | none => .ok cur
  | some .null => .ok []
  | some (.str s) =>
    match base64decode s with
    | some bs => .ok bs
    | none => .error unmarshalErr
  | some _ => .error unmarshalErr

/-- `RelayModuleConfig` (`src/unnamed/part_002` lines 45-47). -/
structure RelayModuleConfig where
  Pin : String
deriving Repr, DecidableEq

/-- `RelaySetRequest` (`src/unnamed/part_002` lines 48-50). -/
structure RelaySetRequest where
  High : Bool
deriving Repr, DecidableEq

/-- `I2CModuleConfig` (`src/unnamed/part_002` lines 93-95). -/
structure I2CModuleConfig where
  Address : ℕ
deriving Repr, DecidableEq

/-- `I2CTransactRequest` (`src/unnamed/part_002` lines 96-99). -/
structure I2CTransactRequest where
  Bytes : List ℕ
  ResponseLength : ℤ
deriving Repr, DecidableEq

/-- `ADS1115ModuleConfig` (`src/unnamed/part_002` lines 144-146). -/
structure ADS1115ModuleConfig where
  Ch : ℤ
deriving Repr, DecidableEq

/-- `HTGModuleConfig` (`src/unnamed/part_002` lines 195-199). -/
structure HTGModuleConfig where
  TemperatureADCChannel : ℤ
  HumidityADCChannel : ℤ
  RHAdjustment : ℚ
deriving Repr, DecidableEq

/-- `HTGCalibrateRequest` (`src/unnamed/part_002` lines 243-246). -/
structure HTGCalibrateRequest where
  TrueValue : Option ℚ
  RHAdjustment : Option ℚ
deriving Repr, DecidableEq

/-- `ServoModuleConfig` (`src/unnamed/part_002` lines 297-302), json tags
`pin`, `frequenzy_hz` (typo preserved), `duty_ratio_p90`, `duty_ratio_n90`. -/
structure ServoModuleConfig where
  Pin : String
  FrequencyHZ : ℤ
  DutyRatioP90 : ℚ
  DutyRatioN90 : ℚ
deriving Repr, DecidableEq

/-- `ServoModuleConfig.Default` (`src/unnamed/part_002` lines 304-308). -/
def ServoModuleConfig.Default (c : ServoModuleConfig) : ServoModuleConfig :=
  { c with FrequencyHZ := 50, DutyRatioP90 := 0.05, DutyRatioN90 := 0.10 }

/-- `ServoModuleConfig.Validate` (`src/unnamed/part_002` lines 309-314). -/
def ServoModuleConfig.Validate (c : ServoModuleConfig) : Except String Unit :=
  if c.Pin = "" then .error "`pin` is a required field" else .ok ()

/-- `ServoSetAngleRequest` (`src/unnamed/part_002` lines 348-350). -/
structure ServoSetAngleRequest where
  Angle : ℚ
deriving Repr, DecidableEq

/-- `HCSRO4Config` (`src/unnamed/part_002` lines 376-380). -/
structure HCSRO4Config where
  TriggerPin : String
  EchoPin : String
  SpeedOfSoundMPMS : Option ℚ
deriving Repr, DecidableEq

/-- `HCSRO4Config.Validate` (`src/unnamed/part_002` lines 382-390). -/
def HCSRO4Config.Validate (c : HCSRO4Config) : Except String Unit :=
  if c.TriggerPin = "" then .error "`trigger_pin` is a required field"
  else if c.EchoPin = "" then .error "`echo_pin` is a required field"
  else .ok ()

/-- Decoding a payload into `RelayModuleConfig`: `null` leaves the target,
an object decodes field-wise, anything else fails. -/
def decodeRelayConfig (payload : JSONValue) (c : RelayModuleConfig) :
    Except String RelayModuleConfig :=
  match payload with
  | .null => .ok c
  | .obj fs => (decStrField fs "pin" c.Pin).map (fun p => { Pin := p })
  | _ => .error unmarshalErr

/-- `JSONBinder.BindData` (`src/unnamed/part_004` lines 700-716) at target
type `RelayModuleConfig` (no defaulting, no validation capability): decode
into the zero value; failures come back as `InputError`s. -/
def bindRelayConfig (payload : JSONValue) : Except GoErr RelayModuleConfig :=
  match decodeRelayConfig payload { Pin := "" } with
  | .error m => .error (.input m)
  | .ok c => .ok c

/-- Decoding a payload into `RelaySetRequest`. -/
def decodeRelaySet (payload : JSONValue) (c : RelaySetRequest) :
    Except String RelaySetRequest :=
  match payload with
  | .null => .ok c
  | .obj fs => (decBoolField fs "high" c.High).map (fun b => { High := b })
  | _ => .error unmarshalErr

/-- `BindData` at target type `RelaySetRequest`. -/
def bindRelaySet (payload : JSONValue) : Except GoErr RelaySetRequest :=
  match decodeRelaySet payload { High := false } with
  | .error m => .error (.input m)
  | .ok c => .ok c

/-- Decoding a payload into `I2CModuleConfig`. -/
def decodeI2CConfig (payload : JSONValue) (c : I2CModuleConfig) :
    Except String I2CModuleConfig :=
  match payload with
  | .null => .ok c
  | .obj fs => (decUint16Field fs "address" c.Address).map (fun a => { Address := a })
  | _ => .error unmarshalErr

/-- `BindData` at target type `I2CModuleConfig`. -/
def bindI2CConfig (payload : JSONValue) : Except GoErr I2CModuleConfig :=
  match decodeI2CConfig payload { Address := 0 } with
  | .error m => .error (.input m)
  | .ok c => .ok c

/-- Decoding a payload into `I2CTransactRequest`. -/
def decodeI2CTransact (payload : JSONValue) (c : I2CTransactRequest) :
    Except String I2CTransactRequest :=
  match payload with
  | .null => .ok c
  | .obj fs => do
    let bs ← decBytesField fs "bytes" c.Bytes
    let n ← decIntField fs "resp_len" c.ResponseLength
    .ok { Bytes := bs, ResponseLength := n }
  | _ => .error unmarshalErr

/-- `BindData` at target type `I2CTransactRequest`. -/
def bindI2CTransact (payload : JSONValue) : Except GoErr I2CTransactRequest :=
  match decodeI2CTransact payload { Bytes := [], ResponseLength := 0 } with
  | .error m => .error (.input m)
  | .ok c => .ok c

/-- Decoding a payload into `ADS1115ModuleConfig`. -/
def decodeADSConfig (payload : JSONValue) (c : ADS1115ModuleConfig) :
    Except String ADS1115ModuleConfig :=
  match payload with
  | .null => .ok c
  | .obj fs => (decIntField fs "channel_mask" c.Ch).map (fun n => { Ch := n })
  | _ => .error unmarshalErr

/-- `BindData` at target type `ADS1115ModuleConfig`. -/
def bindADSConfig (payload : JSONValue) : Except GoErr ADS1115ModuleConfig :=
  match decodeADSConfig payload { Ch := 0 } with
  | .error m => .error (.input m)
  | .ok c => .ok c

/-- Decoding a payload into `HTGModuleConfig`. -/
def decodeHTGConfig (payload : JSONValue) (c : HTGModuleConfig) :
    Except String HTGModuleConfig :=
  match payload with
  | .null => .ok c
  | .obj fs => do
    let t ← decIntField fs "temperature_adc_channel" c.TemperatureADCChannel
    let h ← decIntField fs "humidity_adc_channel" c.HumidityADCChannel
    let adj ← decFloatField fs "rh_adjustment" c.RHAdjustment
    .ok { TemperatureADCChannel := t, HumidityADCChannel := h, RHAdjustment := adj }
  | _ => .error unmarshalErr

/-- `BindData` at target type `HTGModuleConfig`. -/
def bindHTGConfig (payload : JSONValue) : Except GoErr HTGModuleConfig :=
  match decodeHTGConfig payload
      { TemperatureADCChannel := 0, HumidityADCChannel := 0, RHAdjustment := 0 } with
  | .error m => .error (.input m)
  | .ok c => .ok c

/-- Decoding a payload into `HTGCalibrateRequest`. -/
def decodeHTGCalibrate (payload : JSONValue) (c : HTGCalibrateRequest) :
    Except String HTGCalibrateRequest :=
  match payload with
  | .null => .ok c
  | .obj fs => do
    let tv ← decOptFloatField fs "true_value" c.TrueValue
    let adj ← decOptFloatField fs "rh_adjustment" c.RHAdjustment
    .ok { TrueValue := tv, RHAdjustment := adj }
  | _ => .error unmarshalErr

/-- `BindData` at target type `HTGCalibrateRequest`. -/
def bindHTGCalibrate (payload : JSONValue) : Except GoErr HTGCalibrateRequest :=
  match decodeHTGCalibrate payload { TrueValue := none, RHAdjustment := none } with
  | .error m => .error (.input m)
  | .ok c => .ok c

/-- Decoding a payload into `ServoModuleConfig`. -/
def decodeServoConfig (payload : JSONValue) (c : ServoModuleConfig) :
    Except String ServoModuleConfig :=
  match payload with
  | .null => .ok c
  | .obj fs =>
    match decStrField fs "pin" c.Pin with
    | .error m => .error m
    | .ok pin =>
      match decIntField fs "frequenzy_hz" c.FrequencyHZ with
      | .error m => .error m
      | .ok hz =>
        match decFloatField fs "duty_ratio_p90" c.DutyRatioP90 with
        | .error m => .error m
        | .ok p90 =>
          match decFloatField fs "duty_ratio_n90" c.DutyRatioN90 with
          | .error m => .error m
          | .ok n90 =>
            .ok { Pin := pin, FrequencyHZ := hz, DutyRatioP90 := p90, DutyRatioN90 := n90 }
  | _ => .error unmarshalErr

/-- The `ServoModuleConfig{}` zero value (`var m ServoModule` holds it). -/
def servoZeroConfig : ServoModuleConfig :=
  { Pin := "", FrequencyHZ := 0, DutyRatioP90 := 0, DutyRatioN90 := 0 }

/-- `BindData` at target type `ServoModuleConfig`, which has both the
defaulting and the validation capability: apply `Default` to the target
first, decode the payload over it (absent fields keep the defaults), then
run `Validate` on the fully-populated value. -/
def bindServoConfig (payload : JSONValue) : Except GoErr ServoModuleConfig :=
  match decodeServoConfig payload servoZeroConfig.Default with
  | .error m => .error (.input m)
  | .ok c =>
    match c.Validate with
    | .error m => .error (.input m)
    | .ok _ => .ok c

/-- Decoding a payload into `ServoSetAngleRequest`. -/
def decodeServoSet (payload : JSONValue) (c : ServoSetAngleRequest) :
    Except String ServoSetAngleRequest :=
  match payload with
  | .null => .ok c
  | .obj fs => (decFloatField fs "angle" c.Angle).map (fun a => { Angle := a })
  | _ => .error unmarshalErr

/-- `BindData` at target type `ServoSetAngleRequest`. -/
def bindServoSet (payload : JSONValue) : Except GoErr ServoSetAngleRequest :=
  match decodeServoSet payload { Angle := 0 } with
  | .error m => .error (.input m)
  | .ok c => .ok c

/-- Decoding a payload into `HCSRO4Config`. -/
def decodeHCSRO4Config (payload : JSONValue) (c : HCSRO4Config) :
    Except String HCSRO4Config :=
  match payload with
  | .null => .ok c
  | .obj fs => do
    let t ← decStrField fs "trigger_pin" c.TriggerPin
    let e ← decStrField fs "echo_pin" c.EchoPin
    let v ← decOptFloatField fs "speed_of_sound_mpms" c.SpeedOfSoundMPMS
    .ok { TriggerPin := t, EchoPin := e, SpeedOfSoundMPMS := v }
  | _ => .error unmarshalErr

/-- `BindData` at target type `HCSRO4Config` (validation capability only). -/
def bindHCSRO4Config (payload : JSONValue) : Except GoErr HCSRO4Config :=
  match decodeHCSRO4Config payload
      { TriggerPin := "", EchoPin := "", SpeedOfSoundMPMS := none } with
  | .error m => .error (.input m)
  | .ok c =>
    match c.Validate with
    | .error m => .error (.input m)
    | .ok _ => .ok c

/-- Go float-to-int conversion: truncation toward zero. -/
def truncQ (q : ℚ) : ℤ :=
  if q < 0 then -⌊-q⌋ else ⌊q⌋

/-- periph.io's `gpio.DutyMax` (a 100% duty cycle), `1 << 24`. -/
def dutyMax : ℚ := 2 ^ 24

/-- `dutyForRatio` (`src/unnamed/part_002` lines 371-374). -/
def dutyForRatio (v : ℚ) : ℤ :=
  truncQ (v * dutyMax)

/-- `ServoModuleConfig.DutyForAngle` (`src/unnamed/part_002` lines 315-319). -/
def ServoModuleConfig.DutyForAngle (c : ServoModuleConfig) (deg : ℚ) : ℤ :=
  let normalizedValue := (deg - 90) / 180
  let dutyRatio := (normalizedValue + 1) * c.DutyRatioP90 - normalizedValue * c.DutyRatioN90
  dutyForRatio dutyRatio

/-- periph.io's `physic.Hertz` in the unit `physic.Frequency` is stored in
(micro-Hertz), so `ServoModuleConfig.Frequency` (`src/unnamed/part_002`
lines 320-322) is `FrequencyHZ * 1000000`. -/
def ServoModuleConfig.Frequency (c : ServoModuleConfig) : ℤ :=
  c.FrequencyHZ * 1000000

/-- The hardware environment of the binder iteration: outcomes of the
external periph.io calls.  `GoResult`-valued fields let the external library
code return a value, an error, or panic. -/
structure HWEnvB where
  /-- `gpioreg.ByName`: the platform pin registry, `none` when the name is
  unrecognized (Go: a nil pin, with no error) -/
  pinReg : String → Option ℕ
  /-- `pin.Out(level)`: `some msg` is a failure -/
  pinOut : ℕ → Bool → Option String
  /-- whether `host.Init()` succeeds -/
  hostInitOk : Bool
  /-- whether `i2creg.Open("")` succeeds -/
  i2cOpenOk : Bool
  /-- `ads1x15.NewADS1115` over the (possibly nil) default bus -/
  adsNew : Option ℕ → GoResult Unit
  /-- `PinForChannel` over the (possibly nil) default bus and a channel -/
  adsPin : Option ℕ → ℤ → GoResult Unit
  /-- the ADS pin's `Read`, as volts -/
  adsReadVolts : Option ℕ → ℤ → Except String ℚ
  /-- a bus transaction on bus/addr: written bytes, response length ↦
  response bytes (`.error` is a bus failure) -/
  i2cTxB : ℕ → ℕ → List ℕ → ℕ → Except String (List ℕ)
  /-- HTG temperature reading (Kelvins) per ADC channel -/
  htgTkB : ℤ → Except String ℚ
  /-- HTG relative-humidity reading per ADC channel -/
  htgRhB : ℤ → Except String ℚ
  /-- `pin.PWM(duty, freq)`: `some msg` is a failure -/
  pwm : ℕ → ℤ → ℤ → Option String
  /-- whether the HC-SR04 rising-edge `WaitForEdge` fires before timeout -/
  edgeRise : Bool
  /-- the measured pulse duration (`float64(*pulseDuration)`), `none` when
  the falling-edge wait times out -/
  pulse : Option ℚ

/-- `ServiceAgent` of the binder iteration (`src/unnamed/part_004` lines
661-663): only the default bus handle, fixed at construction.  `none` models
a nil bus (kept when `i2creg.Open` failed). -/
structure ServiceAgentB where
  defaultI2CBus : Option ℕ
deriving Repr, DecidableEq

/-- `NewServiceProvider` (`src/unnamed/part_004` lines 644-659): fail only
when `host.Init` fails; when `i2creg.Open` fails the provider is still
returned, with a nil bus.  The opened bus gets heap identity 0. -/
def newServiceProvider (env : HWEnvB) : Except String ServiceAgentB :=
  if env.hostInitOk then
    .ok ⟨if env.i2cOpenOk then some 0 else none⟩
  else .error "failed initializing host"

/-- `ServiceAgent.GetDefaultI2CBus` (`src/unnamed/part_004` lines 665-667):
returns the stored bus handle and a nil error, unconditionally. -/
def getDefaultI2CBus (a : ServiceAgentB) : Option ℕ × Option String :=
  (a.defaultI2CBus, none)

/-- `ServiceAgent.GetGPIOByName` (`src/unnamed/part_004` lines 668-674):
the literal name `"18"` short-circuits to `bcm283x.GPIO18` (modelled as pin
id 18); otherwise the `gpioreg` registry result — possibly nil — is returned,
always with a nil error. -/
def getGPIOByName (env : HWEnvB) (name : String) : Option ℕ × Option String :=
  (if name = "18" then some 18 else env.pinReg name, none)

/-- A driver instance of the binder iteration, either a factory zero value
or an `Initialize`d state.  The `HTGModule` zero value still owns the
`rhAdjustment` field, so `htgZero` carries it. -/
inductive ModuleInstB where
  | echo
  | relayZero
  | relay (pin : ℕ)
  | i2cZero
  | i2cInst (bus : Option ℕ) (addr : ℕ)
  | adsZero
  | adsInst (bus : Option ℕ) (ch : ℤ)
  | htgZero (rhAdj : ℚ)
  | htg (tempCh humCh : ℤ) (rhAdj : ℚ)
  | servoZero
  | servo (config : ServoModuleConfig) (pin : Option ℕ)
  | hcsro4Zero
  | hcsro4 (trigger echoP : Option ℕ) (coefficient : ℚ)
deriving Repr, DecidableEq

/-- `ModuleIndex` of the binder iteration (`src/unnamed/part_004` lines
473-481): seven driver kinds. -/
def factoryB : String → Option ModuleInstB
  | "echo" => some .echo
  | "relay" => some .relayZero
  | "htg3535ch" => some (.htgZero 0)
  | "i2c" => some .i2cZero
  | "ads" => some .adsZero
  | "servo" => some .servoZero
  | "hcsro4" => some .hcsro4Zero
  | _ => none

/-- Outcome of a driver `Initialize` in the binder iteration. -/
inductive InitResultB where
  | panic
  | err (e : GoErr)
  | ok (inst : ModuleInstB)
deriving Repr

/-- `RelayModule.Initialize` (`src/unnamed/part_002` lines 58-75): bind the
config, resolve the pin via `gpioreg.ByName` directly (nil is checked here),
drive it low. -/
def relayInitializeB (env : HWEnvB) (payload : JSONValue) : InitResultB :=
  match bindRelayConfig payload with
  | .error e => .err e
  | .ok cfg =>
    match env.pinReg cfg.Pin with
    | none => .err (.plain "Failed to find pin")
    | some p =>
      match env.pinOut p false with
      | some e => .err (.plain e)
      | none => .ok (.relay p)

/-- `I2CModule.Initialize` (`src/unnamed/part_002` lines 103-117): bind,
then wrap the provider's (possibly nil) default bus; `GetDefaultI2CBus`
never errors, so the error check never fires. -/
def i2cInitializeB (sp : ServiceAgentB) (payload : JSONValue) : InitResultB :=
  match bindI2CConfig payload with
  | .error e => .err e
  | .ok cfg => .ok (.i2cInst (getDefaultI2CBus sp).1 cfg.Address)

/-- `ADS1115Module.Initialize` (`src/unnamed/part_002` lines 152-175). -/
def adsInitializeB (env : HWEnvB) (sp : ServiceAgentB) (payload : JSONValue) : InitResultB :=
  match bindADSConfig payload with
  | .error e => .err e
  | .ok cfg =>
    match env.adsNew (getDefaultI2CBus sp).1 with
    | .panic => .panic
    | .err m => .err (.plain ("failed initializing ADS1115 device: " ++ m))
    | .ok _ =>
      match env.adsPin (getDefaultI2CBus sp).1 cfg.Ch with
      | .panic => .panic
      | .err m => .err (.plain ("failed initializing ADS1115 device: " ++ m))
      | .ok _ => .ok (.adsInst (getDefaultI2CBus sp).1 cfg.Ch)

/-- `HTGModule.Initialize` (`src/unnamed/part_002` lines 206-241). -/
def htgInitializeB (env : HWEnvB) (sp : ServiceAgentB) (payload : JSONValue) : InitResultB :=
  match bindHTGConfig payload with
  | .error e => .err e
  | .ok cfg =>
    match env.adsNew (getDefaultI2CBus sp).1 with
    | .panic => .panic
    | .err m => .err (.plain ("failed initializing ADS1115 device: " ++ m))
    | .ok _ =>
      match env.adsPin (getDefaultI2CBus sp).1 cfg.TemperatureADCChannel with
      | .panic => .panic
      | .err m => .err (.plain ("failed initializing ADS1115 device: " ++ m))
      | .ok _ =>
        match env.adsPin (getDefaultI2CBus sp).1 cfg.HumidityADCChannel with
        | .panic => .panic
        | .err m => .err (.plain ("failed initializing ADS1115 device: " ++ m))
        | .ok _ =>
          .ok (.htg cfg.TemperatureADCChannel cfg.HumidityADCChannel cfg.RHAdjustment)

/-- `ServoModule.Initialize` (`src/unnamed/part_002` lines 335-346): bind
(with defaulting and validation), then `GetGPIOByName` — whose error is
always nil, so a missing pin slips through as nil. -/
def servoInitializeB (env : HWEnvB) (payload : JSONValue) : InitResultB :=
  match bindServoConfig payload with
  | .error e => .err e
  | .ok cfg => .ok (.servo cfg (getGPIOByName env cfg.Pin).1)

/-- `HCSRO4Module.Initialize` (`src/unnamed/part_002` lines 398-421). -/
def hcsro4InitializeB (env : HWEnvB) (payload : JSONValue) : InitResultB :=
  match bindHCSRO4Config payload with
  | .error e => .err e
  | .ok cfg =>
    let coefficient : ℚ :=
      match cfg.SpeedOfSoundMPMS with
      | none => 0.1715
      | some v => v / 2000
    .ok (.hcsro4 (getGPIOByName env cfg.TriggerPin).1 (getGPIOByName env cfg.EchoPin).1
      coefficient)

/-- Dispatch of `Initialize` on an instance. -/
def initInstB (env : HWEnvB) (sp : ServiceAgentB) (inst : ModuleInstB) (payload : JSONValue) :
    InitResultB :=
  match inst with
  | .echo => .ok .echo
  | .relayZero => relayInitializeB env payload
  | .relay _ => relayInitializeB env payload
  | .i2cZero => i2cInitializeB sp payload
  | .i2cInst _ _ => i2cInitializeB sp payload
  | .adsZero => adsInitializeB env sp payload
  | .adsInst _ _ => adsInitializeB env sp payload
  | .htgZero _ => htgInitializeB env sp payload
  | .htg _ _ _ => htgInitializeB env sp payload
  | .servoZero => servoInitializeB env payload
  | .servo _ _ => servoInitializeB env payload
  | .hcsro4Zero => hcsro4InitializeB env payload
  | .hcsro4 _ _ _ => hcsro4InitializeB env payload

/-- `ModuleSpec` of the binder iteration (`src/unnamed/part_004` lines
509-512); the `json.RawMessage` config is carried as its parsed tree. -/
structure ModuleSpecB where
  Source : String
  Config : JSONValue

/-- `ManagerAgent` of the binder iteration. -/
structure ManagerStateB where
  Modules : List (String × ModuleInstB)
  sp : ServiceAgentB

/-- Outcome of the binder iteration's `InitializeModules`. -/
inductive BatchResultB where
  | panicked
  | err (e : GoErr)
  | ok
deriving Repr, DecidableEq

/-- `ManagerAgent.InitializeModules` (`src/unnamed/part_004` lines 483-496),
instrumented: the third component records, in order, the table names whose
instance had its `Stop()` method invoked by the manager during the call —
the source never calls `Stop`, so the record stays empty.  As in `GoMain`,
the table is mutated spec by spec and never restored. -/
def initializeModulesB (env : HWEnvB) :
    List (String × ModuleSpecB) → ManagerStateB → BatchResultB × ManagerStateB × List String
  | [], ms => (.ok, ms, [])
  | (name, spec) :: rest, ms =>
    match factoryB spec.Source with
    | some zero =>
      let table1 := upsert ms.Modules name zero
      match initInstB env ms.sp zero spec.Config with
      | .panic => (.panicked, { ms with Modules := table1 }, [])
      | .err e =>
        (.err (e.wrap "failed to initialize module: "), { ms with Modules := table1 }, [])
      | .ok inst =>
        initializeModulesB env rest { ms with Modules := upsert table1 name inst }
    | none => (.err (.plain ("404 no such module source: " ++ spec.Source)), ms, [])

/-- Result triple of a driver `Act` in the binder iteration: outcome plus
the instance's state after the call (`HTGModule.Act` mutates
`rhAdjustment` in place on `calibrate`). -/
inductive ActOut where
  | panic (inst : ModuleInstB)
  | err (e : GoErr) (inst : ModuleInstB)
  | ok (result : JSONValue) (inst : ModuleInstB)
deriving Repr

/-- The Go error message `no such action `...``. -/
def noSuchActionB (action : String) : String :=
  "no such action `" ++ action ++ "`"

/-- `HCSRO4Module.readDuration`/`readDistanceM`/`Act` "read_meters"
(`src/unnamed/part_002` lines 442-483): trigger pulse (panics on a nil
trigger pin), then two edge waits on the echo pin (panics if nil); a rising
timeout is an error, a falling timeout returns a nil distance (JSON null). -/
def hcsro4ReadMeters (env : HWEnvB) (trigger echoP : Option ℕ) (coefficient : ℚ) :
    GoResult JSONValue :=
  match trigger with
  | none => .panic
  | some _ =>
    match echoP with
    | none => .panic
    | some _ =>
      if env.edgeRise then
        match env.pulse with
        | none => .ok .null
        | some d => .ok (.num (d * coefficient))
      else .err "failed to read range"

/-- The `Act` methods of the binder iteration's module library
(`src/unnamed/part_002` lines 29-40, 76-88, 118-138, 176-184, 251-294,
352-369, 442-449).  `RelayModule` and `I2CModule` bind their request before
the action switch; `ServoModule` and `HTGModule` bind inside the matching
case; `ADS1115Module` and `HCSRO4Module` ignore the binder. -/
def moduleActB (env : HWEnvB) (inst : ModuleInstB) (action : String) (payload : JSONValue) :
    ActOut :=
  match inst with
  | .echo =>
    .ok (.obj [("action", .str action), ("config", payload)]) inst
  | .relayZero =>
    match bindRelaySet payload with
    | .error e => .err e inst
    | .ok _ =>
      if action = "set" then .panic inst
      else .err (.plain (noSuchActionB action)) inst
  | .relay pin =>
    match bindRelaySet payload with
    | .error e => .err e inst
    | .ok req =>
      if action = "set" then
        match env.pinOut pin req.High with
        | some e => .err (.plain e) inst
        | none => .ok .null inst
      else .err (.plain (noSuchActionB action)) inst
  | .i2cZero =>
    match bindI2CTransact payload with
    | .error e => .err e inst
    | .ok req =>
      if action = "transact" then
        if req.ResponseLength < 0 then .panic inst
        else .panic inst
      else .err (.plain (noSuchActionB action)) inst
  | .i2cInst bus addr =>
    match bindI2CTransact payload with
    | .error e => .err e inst
    | .ok req =>
      if action = "transact" then
        if req.ResponseLength < 0 then .panic inst
        else
          match bus with
          | none => .panic inst
          | some b =>
            let rlen := req.ResponseLength.toNat
            match env.i2cTxB b addr req.Bytes rlen with
            | .error m => .err (.plain ("failed executing I2C transaction: " ++ m)) inst
            | .ok resp =>
              .ok (.obj [("response",
                .arr ((GoMain.respBytes resp rlen).map (fun x => .num x)))]) inst
      else .err (.plain (noSuchActionB action)) inst
  | .adsZero =>
    if action = "read" then .panic inst
    else .err (.plain (noSuchActionB action)) inst
  | .adsInst bus ch =>
    if action = "read" then
      match env.adsReadVolts bus ch with
      | .error m => .err (.plain m) inst
      | .ok v => .ok (.num v) inst
    else .err (.plain (noSuchActionB action)) inst
  | .htgZero _ =>
    if action = "rh" ∨ action = "tk" ∨ action = "tc" ∨ action = "tf" then .panic inst
    else if action = "calibrate" then
      match bindHTGCalibrate payload with
      | .error e => .err e inst
      | .ok req =>
        match req.RHAdjustment with
        | some a =>
          .ok (.obj [("rh_adjustment", .num a)]) (.htgZero a)
        | none => .panic inst
    else .err (.plain (noSuchActionB action)) inst
  | .htg t h adj =>
    if action = "rh" then
      match env.htgRhB h with
      | .error m => .err (.plain m) inst
      | .ok v => .ok (.num (v + adj)) inst
    else if action = "tk" then
      match env.htgTkB t with
      | .error m => .err (.plain m) inst
      | .ok v => .ok (.num v) inst
    else if action = "tc" then
      match env.htgTkB t with
      | .error m => .err (.plain m) inst
      | .ok v => .ok (.num (v - 273.15)) inst
    else if action = "tf" then
      match env.htgTkB t with
      | .error m => .err (.plain m) inst
      | .ok v => .ok (.num ((v - 273.15) * 9 / 5 + 32)) inst
    else if action = "calibrate" then
      match bindHTGCalibrate payload with
      | .error e => .err e inst
      | .ok req =>
        match req.RHAdjustment with
        | some a => .ok (.obj [("rh_adjustment", .num a)]) (.htg t h a)
        | none =>
          let trueValue := (req.TrueValue).getD 100
          match env.htgRhB h with
          | .error m => .err (.plain m) inst
          | .ok v =>
            let a := trueValue - v
            .ok (.obj [("rh_adjustment", .num a)]) (.htg t h a)
    else .err (.plain (noSuchActionB action)) inst
  | .servoZero =>
    if action = "set" then
      match bindServoSet payload with
      | .error e => .err e inst
      | .ok _ => .panic inst
    else .err (.plain (noSuchActionB action)) inst
  | .servo cfg pin =>
    if action = "set" then
      match bindServoSet payload with
      | .error e => .err e inst
      | .ok req =>
        match pin with
        | none => .panic inst
        | some p =>
          match env.pwm p (cfg.DutyForAngle req.Angle) cfg.Frequency with
          | some e => .err (.plain ("failed setting PWM: " ++ e)) inst
          | none => .ok .null inst
    else .err (.plain (noSuchActionB action)) inst
  | .hcsro4Zero =>
    if action = "read_meters" then .panic inst
    else .err (.plain (noSuchActionB action)) inst
  | .hcsro4 trigger echoP coefficient =>
    if action = "read_meters" then
      match hcsro4ReadMeters env trigger echoP coefficient with
      | .panic => .panic inst
      | .err m => .err (.plain m) inst
      | .ok v => .ok v inst
    else .err (.plain (noSuchActionB action)) inst

/-- `ManagerAgent.Act` of the binder iteration (`src/unnamed/part_004` lines
497-502); the in-place mutation of the found instance is reflected by
writing the post-call instance back at its name. -/
def managerActB (env : HWEnvB) (ms : ManagerStateB) (module action : String)
    (payload : JSONValue) : ActOut × ManagerStateB :=
  match ms.Modules.lookup module with
  | some inst =>
    match moduleActB env inst action payload with
    | .panic inst' => (.panic inst', { ms with Modules := upsert ms.Modules module inst' })
    | .err e inst' => (.err e inst', { ms with Modules := upsert ms.Modules module inst' })
    | .ok v inst' => (.ok v inst', { ms with Modules := upsert ms.Modules module inst' })
  | none => (.err (.plain "no such module") .echo, ms)

/-- A decoded `/act` request body (`src/unnamed/part_004` lines 517-521). -/
structure ActRequestB where
  Module : String
  Action : String
  Config : JSONValue

/-- The `WriteHeader` calls the `/act` handler issues for a request whose
body decoded successfully (`src/unnamed/part_004` lines 583-627).  On an
`InputError` it writes 400 (and a body) and then — the branch does not
return — falls through to the unconditional 500 write, which net/http
discards as superfluous; on any other error only 500; on success the first
body write carries the implicit 200.  A panic aborts the handler before any
write. -/
def actWrites (env : HWEnvB) (ms : ManagerStateB) (req : ActRequestB) : List ℕ :=
  match (managerActB env ms req.Module req.Action req.Config).1 with
  | .ok _ _ => [200]
  | .err e _ => if e.isInput then [400, 500] else [500]
  | .panic _ => []

/-- The status the client actually receives: the first `WriteHeader` wins. -/
def effectiveStatus (writes : List ℕ) : Option ℕ :=
  writes.head?

end IterB

/-! ## Shared lemmas about the table update and the accessor helpers -/

theorem lookup_upsert_self {α : Type} (m : List (String × α)) (k : String) (v : α) :
    (upsert m k v).lookup k = some v := by
  induction m with
  | nil => simp [upsert, List.lookup]
  | cons p rest ih =>
    obtain ⟨k', v'⟩ := p
    by_cases h : k' = k
    · subst h; simp [upsert, List.lookup]
    · have hb : (k == k') = false := beq_eq_false_iff_ne.mpr (Ne.symm h)
      simp [upsert, h, List.lookup, hb, ih]

theorem lookup_upsert_ne {α : Type} (m : List (String × α)) (k k' : String) (v : α)
    (h : k' ≠ k) : (upsert m k v).lookup k' = m.lookup k' := by
  have hb : (k' == k) = false := beq_eq_false_iff_ne.mpr h
  induction m with
  | nil => simp [upsert, List.lookup, hb]
  | cons p rest ih =>
    obtain ⟨k₀, v₀⟩ := p
    by_cases hk : k₀ = k
    · subst hk; simp [upsert, List.lookup, hb]
    · simp only [upsert, if_neg hk, List.lookup]
      by_cases hk' : k' = k₀
      · have hb' : (k' == k₀) = true := beq_iff_eq.mpr hk'
        simp [hb']
      · have hb' : (k' == k₀) = false := beq_eq_false_iff_ne.mpr hk'
        simp [hb', ih]

theorem upsert_map_fst {α : Type} (m : List (String × α)) (k : String) (v : α) :
    (upsert m k v).map Prod.fst = if k ∈ m.map Prod.fst then m.map Prod.fst
      else m.map Prod.fst ++ [k] := by
  induction m with
  | nil => simp [upsert]
  | cons p rest ih =>
    obtain ⟨k₀, v₀⟩ := p
    by_cases hk : k₀ = k
    · subst hk; simp [upsert]
    · simp only [upsert, if_neg hk, List.map_cons, ih, List.mem_cons]
      by_cases hmem : k ∈ rest.map Prod.fst
      · simp [hmem, Ne.symm hk]
      · simp [hmem, Ne.symm hk]

theorem upsert_keys_nodup {α : Type} (m : List (String × α)) (k : String) (v : α)
    (h : (m.map Prod.fst).Nodup) : ((upsert m k v).map Prod.fst).Nodup := by
  rw [upsert_map_fst]
  by_cases hmem : k ∈ m.map Prod.fst
  · simpa [hmem] using h
  · rw [if_neg hmem]
    exact h.append (List.nodup_singleton k) (by simpa [List.disjoint_singleton] using hmem)

theorem lookup_isSome_upsert {α : Type} (m : List (String × α)) (k n : String) (v : α)
    (h : (m.lookup n).isSome) : ((upsert m k v).lookup n).isSome := by
  by_cases hk : n = k
  · subst hk; simp [lookup_upsert_self]
  · rwa [lookup_upsert_ne m k n v hk]

namespace GoMain

theorem GetUnsafe_obj_cons (fields : List (String × JSONValue)) (seg : String)
    (rest : List String) :
    GetUnsafe (.obj fields) (seg :: rest) = GetUnsafe ((objLookup fields seg).getD .null) rest :=
  rfl

theorem Get_of_some {ref : JSONValue} {path : List String} {v : JSONValue}
    (h : GetUnsafe ref path = some v) : Get ref path = (v, true) := by
  unfold Get; rw [h]

theorem Get_of_none {ref : JSONValue} {path : List String}
    (h : GetUnsafe ref path = none) : Get ref path = (.null, false) := by
  unfold Get; rw [h]

/-- A sample hardware environment for concrete evaluations. -/
def sampleEnv : HWEnv :=
  { gpioSetupOk := true, hostInitOk := true, i2cOpenOk := true, adsNewOk := true,
    adsPinOk := true, i2cTx := fun _ _ _ _ => none, adsRead := none,
    htgTk := fun _ => none, htgRh := fun _ => none }

/-- C10: `Get` is total — the deferred `recover` converts every traversal
panic into a return.  Whenever every path segment indexes a string-keyed map
(`pathOk`), `Get` returns the traversed value with `ok = true`, agreeing with
`GetUnsafe`; whenever some traversal step would fail, `GetUnsafe` panics and
`Get` returns `nil` with `ok = false`. -/
theorem get_total_and_correct (ref : JSONValue) (path : List String) :
    (pathOk ref path = true ∧ GetUnsafe ref path = some (traversePath ref path) ∧
      Get ref path = (traversePath ref path, true)) ∨
    (pathOk ref path = false ∧ GetUnsafe ref path = none ∧
      Get ref path = (.null, false)) := by
  induction path generalizing ref with
  | nil => exact Or.inl ⟨rfl, rfl, Get_of_some rfl⟩
  | cons seg rest ih =>
    cases ref with
    | obj fields =>
      rcases ih ((objLookup fields seg).getD .null) with ⟨h1, h2, h3⟩ | ⟨h1, h2, h3⟩
      · exact Or.inl ⟨h1, h2, h3⟩
      · exact Or.inr ⟨h1, h2, h3⟩
    | null => exact Or.inr ⟨rfl, rfl, Get_of_none rfl⟩
    | bool b => exact Or.inr ⟨rfl, rfl, Get_of_none rfl⟩
    | num q => exact Or.inr ⟨rfl, rfl, Get_of_none rfl⟩
    | str s => exact Or.inr ⟨rfl, rfl, Get_of_none rfl⟩
    | arr elems => exact Or.inr ⟨rfl, rfl, Get_of_none rfl⟩

/-- C3: `ManagerAgent.Act` on a module name absent from the live table
returns the `no such module` error, performs no hardware operation, and
invokes no driver code (the state is handed back untouched without any
`moduleAct` call). -/
theorem act_unknown_module (env : HWEnv) (ms : ManagerState) (module action : String)
    (config : JSONValue) (h : ms.Modules.lookup module = none) :
    managerAct env ms module action config = (.err "no such module", [], ms) := by
  unfold managerAct; rw [h]

/-- Witness for C3 at a concrete input. -/
theorem act_unknown_module_witness :
    (([] : List (String × ModuleInst)).lookup "missing" = none) ∧
    managerAct sampleEnv ⟨[], initialServiceState⟩ "missing" "set" .null
      = (.err "no such module", [], ⟨[], initialServiceState⟩) :=
  ⟨rfl, act_unknown_module sampleEnv ⟨[], initialServiceState⟩ "missing" "set" .null rfl⟩

/-- C9: `ManagerAgent.Act` leaves the live module table (indeed the whole
manager state) unchanged, for every module name, action and payload. -/
theorem act_preserves_table (env : HWEnv) (ms : ManagerState) (module action : String)
    (config : JSONValue) :
    (managerAct env ms module action config).2.2.Modules = ms.Modules := by
  unfold managerAct
  cases h : ms.Modules.lookup module with
  | none => rfl
  | some inst =>
    rcases hm : moduleAct env inst action config with ⟨r, tr⟩
    simp [hm]

/-- C5: every driver whose `Act` has an action switch (`EchoModule` is the
one driver that accepts every action) returns the `no such action` error on
an unrecognized action name, with no hardware operation in the trace. -/
theorem act_unrecognized_action (env : HWEnv) (inst : ModuleInst) (action : String)
    (config : JSONValue) (as : List String) (hk : knownActions inst = some as)
    (ha : action ∉ as) :
    moduleAct env inst action config = (.err (noSuchAction action), []) := by
  cases inst with
  | echo => simp [knownActions] at hk
  | relayZero =>
    simp only [knownActions, Option.some.injEq] at hk
    subst hk
    simp only [List.mem_singleton] at ha
    simp [moduleAct, ha]
  | relay pin =>
    simp only [knownActions, Option.some.injEq] at hk
    subst hk
    simp only [List.mem_singleton] at ha
    simp [moduleAct, ha]
  | i2cZero =>
    simp only [knownActions, Option.some.injEq] at hk
    subst hk
    simp only [List.mem_singleton] at ha
    simp [moduleAct, ha]
  | i2cInst d =>
    simp only [knownActions, Option.some.injEq] at hk
    subst hk
    simp only [List.mem_singleton] at ha
    simp [moduleAct, ha]
  | adsZero =>
    simp only [knownActions, Option.some.injEq] at hk
    subst hk
    simp only [List.mem_singleton] at ha
    simp [moduleAct, ha]
  | adsInst d =>
    simp only [knownActions, Option.some.injEq] at hk
    subst hk
    simp only [List.mem_singleton] at ha
    simp [moduleAct, ha]
  | htg t h =>
    simp only [knownActions, Option.some.injEq] at hk
    subst hk
    simp only [List.mem_cons, List.mem_singleton, not_or] at ha
    obtain ⟨h1, h2, h3, h4⟩ := ha
    simp [moduleAct, h1, h2, h3, h4]

/-- Witness for C5 at a concrete input. -/
theorem act_unrecognized_action_witness :
    knownActions (.relay 20) = some ["set"] ∧ ("blink" ∉ (["set"] : List String)) ∧
    moduleAct sampleEnv (.relay 20) "blink" .null = (.err (noSuchAction "blink"), []) :=
  ⟨rfl, by decide,
    act_unrecognized_action sampleEnv (.relay 20) "blink" .null ["set"] rfl (by decide)⟩

/-- C2 counterexample: with a live table holding `"old"`, initializing the
single-spec set `{"new": echo}` succeeds — yet `"old"` is still live
afterwards, although no spec names it.  The table is merged into, never
replaced. -/
theorem initializeModules_keeps_stale_entry :
    (initializeModules sampleEnv [("new", ⟨"echo", .null⟩)]
        ⟨[("old", .echo)], initialServiceState⟩).1 = .ok ∧
    (initializeModules sampleEnv [("new", ⟨"echo", .null⟩)]
        ⟨[("old", .echo)], initialServiceState⟩).2.Modules.lookup "old" = some .echo ∧
    ("old" : String) ∉ (["new"] : List String) :=
  ⟨rfl, rfl, by decide⟩

/-- C2 (amended): whenever `InitializeModules` returns no error — which is
exactly the case that every spec's driver kind is registered and every
`Initialize` call succeeded — the live table afterwards has an entry for
every spec name, keeps at most one entry per name, and *retains every
previously-live entry whose name no spec mentions*: the new specs are merged
into the previous table rather than replacing it. -/
theorem initializeModules_merge (env : HWEnv) (specs : List (String × ModuleSpec))
    (ms ms' : ManagerState) (h : initializeModules env specs ms = (.ok, ms')) :
    (∀ p ∈ specs, ((ms'.Modules).lookup p.1).isSome) ∧
    (∀ n, n ∉ specs.map Prod.fst → ms'.Modules.lookup n = ms.Modules.lookup n) ∧
    ((ms.Modules.map Prod.fst).Nodup → (ms'.Modules.map Prod.fst).Nodup) := by
  induction specs generalizing ms with
  | nil =>
    simp only [initializeModules, Prod.mk.injEq, true_and] at h
    subst h
    exact ⟨by simp, fun n _ => rfl, fun hnd => hnd⟩
  | cons p rest ih =>
    obtain ⟨name, spec⟩ := p
    simp only [initializeModules] at h
    cases hf : factory spec.Source with
    | none => simp [hf] at h
    | some zero =>
      simp only [hf] at h
      cases hi : initInst env zero spec.Config ms.svc with
      | panic => simp [hi] at h
      | err e s' => simp [hi] at h
      | ok inst s' =>
        simp only [hi] at h
        obtain ⟨ha, hb, hc⟩ :=
          ih ⟨upsert (upsert ms.Modules name zero) name inst, s'⟩ h
        refine ⟨?_, ?_, ?_⟩
        · intro q hq
          rcases List.mem_cons.mp hq with hq | hq
          · subst hq
            by_cases hmem : name ∈ rest.map Prod.fst
            · obtain ⟨q', hq', hfst⟩ := List.mem_map.mp hmem
              have := ha q' hq'
              rwa [hfst] at this
            · have hkeep : ms'.Modules.lookup name
                  = (upsert (upsert ms.Modules name zero) name inst).lookup name :=
                hb name hmem
              rw [hkeep, lookup_upsert_self]
              rfl
          · exact ha q hq
        · intro n hn
          rw [List.map_cons, List.mem_cons, not_or] at hn
          obtain ⟨hn1, hn2⟩ := hn
          have hkeep : ms'.Modules.lookup n
              = (upsert (upsert ms.Modules name zero) name inst).lookup n :=
            hb n hn2
          rw [hkeep, lookup_upsert_ne _ _ _ _ hn1, lookup_upsert_ne _ _ _ _ hn1]
        · intro hnd
          have : ((upsert (upsert ms.Modules name zero) name inst).map Prod.fst).Nodup :=
            upsert_keys_nodup _ _ _ (upsert_keys_nodup _ _ _ hnd)
          exact hc this

/-- Witness for the amended C2 at a concrete input: `"new"` is live after
the call, `"old"` kept its previous binding. -/
theorem initializeModules_merge_witness :
    (((⟨[("old", .echo), ("new", .echo)], initialServiceState⟩ :
        ManagerState).Modules.lookup "new").isSome) ∧
    ((⟨[("old", .echo), ("new", .echo)], initialServiceState⟩ :
        ManagerState).Modules.lookup "old"
      = (⟨[("old", .echo)], initialServiceState⟩ : ManagerState).Modules.lookup "old") :=
  ⟨(initializeModules_merge sampleEnv [("new", ⟨"echo", .null⟩)]
      ⟨[("old", .echo)], initialServiceState⟩ _ rfl).1 ("new", ⟨"echo", .null⟩) (by simp),
   (initializeModules_merge sampleEnv [("new", ⟨"echo", .null⟩)]
      ⟨[("old", .echo)], initialServiceState⟩ _ rfl).2.1 "old" (by decide)⟩

/-- N sequential `GetI2CDevice` calls at one address, collecting the handles
handed out (an error would abort the sequence; under a working environment
none occurs). -/
def callBusN (env : HWEnv) (addr : ℕ) : ℕ → ServiceState → List I2CDev × ServiceState
  | 0, s => ([], s)
  | n + 1, s =>
    match getI2CDevice env addr s with
    | .ok (d, s') =>
      let r := callBusN env addr n s'
      (d :: r.1, r.2)
    | .error _ => ([], s)

theorem callBusN_cached (env : HWEnv) (addr b n : ℕ) (s : ServiceState)
    (hhost : env.hostInitOk = true) (hb : s.i2c = some b) :
    callBusN env addr n s =
      ((List.range n).map (fun i => ⟨s.nextId + i, b, addr⟩),
        { s with nextId := s.nextId + n }) := by
  induction n generalizing s with
  | zero => simp [callBusN]
  | succ n ih =>
    have hdev : getI2CDevice env addr s
        = .ok (⟨s.nextId, b, addr⟩, { s with nextId := s.nextId + 1 }) := by
      unfold getI2CDevice
      rw [hb]
      simp [hhost]
    unfold callBusN
    rw [hdev]
    simp only
    rw [ih { s with nextId := s.nextId + 1 } hb]
    have harith : ∀ i : ℕ, s.nextId + 1 + i = s.nextId + (i + 1) := fun i => by omega
    have hstate : s.nextId + 1 + n = s.nextId + (n + 1) := by omega
    simp only [List.range_succ_eq_map, List.map_cons, List.map_map, Function.comp_def,
      Nat.succ_eq_add_one, Nat.add_zero, harith, hstate]

/-- C7 counterexample: two sequential calls on a fresh `ServiceAgent` hand
out two *distinct* `&i2c.Dev` allocations (heap ids 1 and 2) — the returned
handles are not reference-equal, even though both wrap bus 0. -/
theorem getI2CDevice_fresh_handles :
    (callBusN sampleEnv 72 2 initialServiceState).1 = [⟨1, 0, 72⟩, ⟨2, 0, 72⟩] ∧
    ((⟨1, 0, 72⟩ : I2CDev) ≠ ⟨2, 0, 72⟩) :=
  ⟨rfl, by decide⟩

/-- C7 (amended): N sequential `GetI2CDevice` calls on a fresh agent return
N handles that are pairwise distinct allocations, but that all reference one
underlying bus resource (bus id 0); the bus is opened lazily — zero opens
before the first call — and exactly once, never re-opened. -/
theorem getI2CDevice_single_open (env : HWEnv) (addr n : ℕ)
    (h1 : env.hostInitOk = true) (h2 : env.i2cOpenOk = true) :
    (callBusN env addr n initialServiceState).1.length = n ∧
    (∀ d ∈ (callBusN env addr n initialServiceState).1, d.busId = 0) ∧
    ((callBusN env addr n initialServiceState).1.map I2CDev.devId).Nodup ∧
    (callBusN env addr n initialServiceState).2.opens = min n 1 ∧
    initialServiceState.opens = 0 := by
  cases n with
  | zero => simp [callBusN, initialServiceState]
  | succ n =>
    have hdev : getI2CDevice env addr initialServiceState
        = .ok (⟨1, 0, addr⟩, ⟨false, some 0, 2, 1⟩) := by
      unfold getI2CDevice initialServiceState
      simp [h1, h2]
    have hrest := callBusN_cached env addr 0 n ⟨false, some 0, 2, 1⟩ h1 rfl
    unfold callBusN
    rw [hdev]
    simp only [hrest]
    refine ⟨by simp, ?_, ?_, ?_, rfl⟩
    · intro d hd
      rcases List.mem_cons.mp hd with hd | hd
      · rw [hd]
      · obtain ⟨i, _, hi⟩ := List.mem_map.mp hd
        rw [← hi]
    · rw [List.map_cons, List.map_map]
      refine List.Nodup.cons ?_ (List.Nodup.map ?_ (List.nodup_range n))
      · intro hmem
        obtain ⟨i, _, hi⟩ := List.mem_map.mp hmem
        simp only [Function.comp_def] at hi
        omega
      · intro a a' haa
        simp only [Function.comp_def] at haa
        omega
    · simp [Nat.min_def]

/-- Witness for the amended C7 at a concrete input. -/
theorem getI2CDevice_single_open_witness :
    sampleEnv.hostInitOk = true ∧ sampleEnv.i2cOpenOk = true ∧
    (callBusN sampleEnv 72 2 initialServiceState).2.opens = min 2 1 :=
  ⟨rfl, rfl, (getI2CDevice_single_open sampleEnv 72 2 rfl rfl).2.2.2.1⟩

end GoMain

namespace IterB

/-- A sample hardware environment of the binder iteration for concrete
evaluations. -/
def sampleEnvB : HWEnvB :=
  { pinReg := fun _ => none, pinOut := fun _ _ => none, hostInitOk := true,
    i2cOpenOk := true, adsNew := fun _ => .ok (), adsPin := fun _ _ => .ok (),
    adsReadVolts := fun _ _ => .error "no data", i2cTxB := fun _ _ _ _ => .error "no data",
    htgTkB := fun _ => .error "no data", htgRhB := fun _ => .error "no data",
    pwm := fun _ _ _ => none, edgeRise := false, pulse := none }

theorem initializeModulesB_append (env : HWEnvB) (l1 l2 : List (String × ModuleSpecB))
    (ms : ManagerStateB) :
    initializeModulesB env (l1 ++ l2) ms =
      match initializeModulesB env l1 ms with
      | (.ok, ms1, _) => initializeModulesB env l2 ms1
      | (.panicked, ms1, st) => (.panicked, ms1, st)
      | (.err e, ms1, st) => (.err e, ms1, st) := by
  induction l1 generalizing ms with
  | nil => simp [initializeModulesB]
  | cons p rest ih =>
    obtain ⟨name, spec⟩ := p
    simp only [List.cons_append, initializeModulesB]
    cases hf : factoryB spec.Source with
    | none => simp [hf]
    | some zero =>
      simp only [hf]
      cases hi : initInstB env ms.sp zero spec.Config with
      | panic => simp [hi]
      | err e => simp [hi]
      | ok inst =>
        simp only [hi]
        exact ih _

/-- C1 counterexample: iterating the spec set `{a: echo, b: bogus}` in the
order `a, b` over an empty live table returns the unknown-source error, but
the table afterwards holds the `a` instance constructed during the failed
batch (so it is not the table from before the call), and no instance had its
`Stop` invoked. -/
theorem initializeModulesB_not_atomic :
    (initializeModulesB sampleEnvB
        [("a", ⟨"echo", .null⟩), ("b", ⟨"bogus", .null⟩)] ⟨[], ⟨some 0⟩⟩).1
      = .err (.plain "404 no such module source: bogus") ∧
    (initializeModulesB sampleEnvB
        [("a", ⟨"echo", .null⟩), ("b", ⟨"bogus", .null⟩)] ⟨[], ⟨some 0⟩⟩).2.1.Modules
      = [("a", .echo)] ∧
    (([] : List (String × ModuleInstB)) ≠ [("a", .echo)]) ∧
    (initializeModulesB sampleEnvB
        [("a", ⟨"echo", .null⟩), ("b", ⟨"bogus", .null⟩)] ⟨[], ⟨some 0⟩⟩).2.2 = [] :=
  ⟨rfl, rfl, by decide, rfl⟩

/-- C1 (amended): when the spec list reaches an unregistered driver kind
after a prefix of specs that resolved and initialized successfully,
`InitializeModules` returns the `404 no such module source` error, the live
table is left exactly as the prefix left it — the instances constructed
during the failed batch stay live, nothing is rolled back — and `Stop` is
never invoked on any of them. -/
theorem initializeModulesB_unknown_source (env : HWEnvB) (pre : List (String × ModuleSpecB))
    (name : String) (spec : ModuleSpecB) (rest : List (String × ModuleSpecB))
    (ms ms₁ : ManagerStateB)
    (hpre : initializeModulesB env pre ms = (.ok, ms₁, []))
    (hmiss : factoryB spec.Source = none) :
    initializeModulesB env (pre ++ (name, spec) :: rest) ms
      = (.err (.plain ("404 no such module source: " ++ spec.Source)), ms₁, []) := by
  rw [initializeModulesB_append, hpre]
  simp [initializeModulesB, hmiss]

/-- Witness for the amended C1 at a concrete input. -/
theorem initializeModulesB_unknown_source_witness :
    initializeModulesB sampleEnvB [("a", ⟨"echo", .null⟩)] ⟨[], ⟨some 0⟩⟩
      = (.ok, ⟨[("a", .echo)], ⟨some 0⟩⟩, []) ∧
    factoryB "bogus" = none ∧
    initializeModulesB sampleEnvB
        ([("a", ⟨"echo", .null⟩)] ++ [("b", (⟨"bogus", .null⟩ : ModuleSpecB))]) ⟨[], ⟨some 0⟩⟩
      = (.err (.plain ("404 no such module source: " ++ "bogus")), ⟨[("a", .echo)], ⟨some 0⟩⟩,
         []) :=
  ⟨rfl, rfl,
    initializeModulesB_unknown_source sampleEnvB [("a", ⟨"echo", .null⟩)] "b" ⟨"bogus", .null⟩
      [] ⟨[], ⟨some 0⟩⟩ ⟨[("a", .echo)], ⟨some 0⟩⟩ rfl rfl⟩

/-- C4 (amended): the `/act` handler's status mapping is: binder input
errors (decode and validation failures) receive the client-error status 400;
*every* other act error — including the unknown-module and unknown-action
errors, which are plain errors — receives the server-error status 500.
There is no not-found-shaped special case. -/
theorem actStatus_mapping (env : HWEnvB) (ms : ManagerStateB) (req : ActRequestB)
    (e : GoErr) (inst' : ModuleInstB)
    (h : (managerActB env ms req.Module req.Action req.Config).1 = .err e inst') :
    effectiveStatus (actWrites env ms req) = some (if e.isInput then 400 else 500) := by
  unfold actWrites
  rw [h]
  cases hin : e.isInput <;> simp [effectiveStatus, hin]

/-- Witness for the amended C4 at a concrete input. -/
theorem actStatus_mapping_witness :
    ((managerActB sampleEnvB ⟨[], ⟨some 0⟩⟩ "missing" "set" .null).1
      = .err (.plain "no such module") .echo) ∧
    effectiveStatus (actWrites sampleEnvB ⟨[], ⟨some 0⟩⟩ ⟨"missing", "set", .null⟩)
      = some (if (GoErr.plain "no such module").isInput then 400 else 500) :=
  ⟨rfl, actStatus_mapping sampleEnvB ⟨[], ⟨some 0⟩⟩ ⟨"missing", "set", .null⟩
    (.plain "no such module") .echo rfl⟩

/-- C4 counterexample: an act request against a module name absent from the
live table is answered with status 500 — a server error, not the
not-found-shaped client-error status (4xx/404) the claim requires. -/
theorem actStatus_unknown_module_500 :
    effectiveStatus (actWrites sampleEnvB ⟨[], ⟨some 0⟩⟩ ⟨"missing", "set", .null⟩)
      = some 500 ∧
    ¬(400 ≤ 500 ∧ 500 < 500) ∧ (500 : ℕ) ≠ 404 :=
  ⟨rfl, by decide, by decide⟩

theorem decStrField_ok_char (fs : List (String × JSONValue)) (key : String) (cur v : String)
    (h : decStrField fs key cur = .ok v) :
    (objLookup fs key = none → v = cur) ∧
    (∀ s, objLookup fs key = some (.str s) → v = s) := by
  unfold decStrField at h
  constructor
  · intro hl; rw [hl] at h; exact (Except.ok.inj h).symm
  · intro s hl; rw [hl] at h; exact (Except.ok.inj h).symm

theorem decIntField_ok_char (fs : List (String × JSONValue)) (key : String) (cur v : ℤ)
    (h : decIntField fs key cur = .ok v) :
    (objLookup fs key = none → v = cur) ∧
    (∀ q : ℚ, objLookup fs key = some (.num q) → v = q.num) := by
  unfold decIntField at h
  constructor
  · intro hl; rw [hl] at h; exact (Except.ok.inj h).symm
  · intro q hl
    rw [hl] at h
    have h' : (if q.den = 1 ∧ -(2 ^ 63) ≤ q.num ∧ q.num < 2 ^ 63 then
        (Except.ok q.num : Except String ℤ) else .error unmarshalErr) = .ok v := h
    split at h'
    · exact (Except.ok.inj h').symm
    · simp at h'

theorem decFloatField_ok_char (fs : List (String × JSONValue)) (key : String) (cur v : ℚ)
    (h : decFloatField fs key cur = .ok v) :
    (objLookup fs key = none → v = cur) ∧
    (∀ q : ℚ, objLookup fs key = some (.num q) → v = q) := by
  unfold decFloatField at h
  constructor
  · intro hl; rw [hl] at h; exact (Except.ok.inj h).symm
  · intro q hl; rw [hl] at h; exact (Except.ok.inj h).symm

/-- C6: binding a servo configuration applies the defaulting capability
before decoding and invokes validation after decoding on the fully-populated
value: when the bind succeeds, every defaulted field that the payload omits
holds its default (`frequenzy_hz` ↦ 50, `duty_ratio_p90` ↦ 0.05,
`duty_ratio_n90` ↦ 0.10), every field the payload sets holds the payload's
value regardless of the default, and the validated value passed the `pin`
requirement. -/
theorem bindServo_defaults_and_overrides (fs : List (String × JSONValue))
    (t : ServoModuleConfig) (h : bindServoConfig (.obj fs) = .ok t) :
    (objLookup fs "frequenzy_hz" = none → t.FrequencyHZ = 50) ∧
    (∀ q : ℚ, objLookup fs "frequenzy_hz" = some (.num q) → t.FrequencyHZ = q.num) ∧
    (objLookup fs "duty_ratio_p90" = none → t.DutyRatioP90 = 0.05) ∧
    (∀ q : ℚ, objLookup fs "duty_ratio_p90" = some (.num q) → t.DutyRatioP90 = q) ∧
    (objLookup fs "duty_ratio_n90" = none → t.DutyRatioN90 = 0.10) ∧
    (∀ q : ℚ, objLookup fs "duty_ratio_n90" = some (.num q) → t.DutyRatioN90 = q) ∧
    (∀ s, objLookup fs "pin" = some (.str s) → t.Pin = s) ∧
    t.Pin ≠ "" := by
  unfold bindServoConfig at h
  cases hdec : decodeServoConfig (.obj fs) servoZeroConfig.Default with
  | error m => simp only [hdec] at h; exact absurd h (by simp)
  | ok c2 =>
    simp only [hdec] at h
    cases hval : c2.Validate with
    | error m => simp only [hval] at h; exact absurd h (by simp)
    | ok u =>
      simp only [hval] at h
      have ht : c2 = t := Except.ok.inj h
      subst ht
      simp only [decodeServoConfig] at hdec
      cases hpin : decStrField fs "pin" servoZeroConfig.Default.Pin with
      | error m => simp only [hpin] at hdec; exact absurd hdec (by simp)
      | ok pin =>
        simp only [hpin] at hdec
        cases hhz : decIntField fs "frequenzy_hz" servoZeroConfig.Default.FrequencyHZ with
        | error m => simp only [hhz] at hdec; exact absurd hdec (by simp)
        | ok hz =>
          simp only [hhz] at hdec
          cases hp90 : decFloatField fs "duty_ratio_p90" servoZeroConfig.Default.DutyRatioP90 with
          | error m => simp only [hp90] at hdec; exact absurd hdec (by simp)
          | ok p90 =>
            simp only [hp90] at hdec
            cases hn90 :
                decFloatField fs "duty_ratio_n90" servoZeroConfig.Default.DutyRatioN90 with
            | error m => simp only [hn90] at hdec; exact absurd hdec (by simp)
            | ok n90 =>
              simp only [hn90] at hdec
              have hc2 := (Except.ok.inj hdec).symm
              subst hc2
              refine ⟨?_, ?_, ?_, ?_, ?_, ?_, ?_, ?_⟩
              · intro hnone
                exact (decIntField_ok_char _ _ _ _ hhz).1 hnone
              · intro q hq
                exact (decIntField_ok_char _ _ _ _ hhz).2 q hq
              · intro hnone
                exact (decFloatField_ok_char _ _ _ _ hp90).1 hnone
              · intro q hq
                exact (decFloatField_ok_char _ _ _ _ hp90).2 q hq
              · intro hnone
                exact (decFloatField_ok_char _ _ _ _ hn90).1 hnone
              · intro q hq
                exact (decFloatField_ok_char _ _ _ _ hn90).2 q hq
              · intro s hs
                exact (decStrField_ok_char _ _ _ _ hpin).2 s hs
              · intro hp
                simp [ServoModuleConfig.Validate, hp] at hval
                exact hval hp

/-- Witness for C6 at a concrete input: a payload that sets only `pin` binds
with the defaulted frequency 50. -/
theorem bindServo_defaults_witness :
    (bindServoConfig (.obj [("pin", .str "12")])
      = .ok { Pin := "12", FrequencyHZ := 50, DutyRatioP90 := 0.05, DutyRatioN90 := 0.10 }) ∧
    ({ Pin := "12", FrequencyHZ := 50, DutyRatioP90 := 0.05, DutyRatioN90 := 0.10 } :
      ServoModuleConfig).FrequencyHZ = 50 :=
  ⟨rfl, (bindServo_defaults_and_overrides [("pin", .str "12")] _ rfl).1 rfl⟩

/-- C8 counterexample: looking up a pin name the registry does not know
yields a nil handle *and a nil error* — no NotFound (or any) error is
returned, contrary to the claim. -/
theorem getGPIOByName_no_error_on_unknown :
    sampleEnvB.pinReg "bogus" = none ∧ ("bogus" : String) ≠ "18" ∧
    getGPIOByName sampleEnvB "bogus" = (none, none) :=
  ⟨rfl, by decide, rfl⟩

/-- C8 (amended): `GetGPIOByName` never returns an error; for a name other
than the hard-wired `"18"` that the platform pin registry does not
recognize, it returns a nil handle with a nil error, which the caller must
nil-check. -/
theorem getGPIOByName_never_errors (env : HWEnvB) (name : String) :
    (getGPIOByName env name).2 = none ∧
    (name ≠ "18" → env.pinReg name = none → (getGPIOByName env name).1 = none) := by
  unfold getGPIOByName
  refine ⟨rfl, fun h18 hreg => ?_⟩
  simp [h18, hreg]

/-- Witness for the amended C8 at a concrete input. -/
theorem getGPIOByName_never_errors_witness :
    (getGPIOByName sampleEnvB "bogus").2 = none ∧
    (getGPIOByName sampleEnvB "bogus").1 = none :=
  ⟨(getGPIOByName_never_errors sampleEnvB "bogus").1,
   (getGPIOByName_never_errors sampleEnvB "bogus").2 (by decide) rfl⟩

end IterB

end PiHub
